import Mathlib

/-!
Verification of the pressure-based incompressible flux kernels of
`numerics_direct_mean_inc.cpp` (SU2, pressure-based fork): the data model,
the four `ComputeResidual` operators (`CUpwPB_Flow`, `CCentJSTPB_Flow`,
`CCentLaxPB_Flow`, `CPressureSource`), and theorems about their behaviour.

`su2double` is modelled as `ℝ` (idealized real arithmetic).  C arrays are
modelled as total functions `ℕ → ℝ`; the kernels only ever read and the
claims only ever mention the in-range indices, so the out-of-range values
are irrelevant.  The caller-owned output arrays `val_residual`,
`val_Jacobian_i`, `val_Jacobian_j` are modelled by returning a `FluxOutput`
record; the incoming contents of the Jacobian arrays are passed in so that
"left untouched in explicit mode" is expressible.
-/

namespace SU2

noncomputable section

/-- Per-face inputs to a `ComputeResidual` call: the members of `CNumerics`
that the caller sets before invoking the kernel (`V_i`/`V_j` primitive
arrays laid out `[pressure, velocity_0 .. velocity_{nDim-1}, density]`,
the face normal, conservative states `U_i`/`U_j`, undivided Laplacians,
sensors, neighbor counts, and the externally supplied spectral radii
`Lambda_i`/`Lambda_j`). -/
structure FaceInputs where
  V_i : ℕ → ℝ
  V_j : ℕ → ℝ
  Normal : ℕ → ℝ
  U_i : ℕ → ℝ
  U_j : ℕ → ℝ
  Und_Lapl_i : ℕ → ℝ
  Und_Lapl_j : ℕ → ℝ
  Sensor_i : ℝ
  Sensor_j : ℝ
  Neighbor_i : ℕ
  Neighbor_j : ℕ
  Lambda_i : ℝ
  Lambda_j : ℝ

/-- The configuration object fields read by the kernel constructors. -/
structure CConfig where
  kind_TimeIntScheme_Flow : ℕ
  gravityForce : Bool
  froude : ℝ
  kappa_2nd_Flow : ℝ
  kappa_4th_Flow : ℝ
  kappa_1st_Flow : ℝ
  grid_Movement : Bool

/-- The `EULER_IMPLICIT` time-integration enumeration tag. -/
def EULER_IMPLICIT : ℕ := 3

/-- Output of a residual/Jacobian evaluation: the contents of
`val_residual`, `val_Jacobian_i`, `val_Jacobian_j` after the call. -/
structure FluxOutput where
  residual : ℕ → ℝ
  jac_i : ℕ → ℕ → ℝ
  jac_j : ℕ → ℕ → ℝ

/-- `Pressure_i = V_i[0]`. -/
def Pressure_i (inp : FaceInputs) : ℝ := inp.V_i 0

/-- `Pressure_j = V_j[0]`. -/
def Pressure_j (inp : FaceInputs) : ℝ := inp.V_j 0

/-- `Velocity_i[iDim] = V_i[iDim+1]`. -/
def Velocity_i (inp : FaceInputs) (d : ℕ) : ℝ := inp.V_i (d + 1)

/-- `Velocity_j[iDim] = V_j[iDim+1]`. -/
def Velocity_j (inp : FaceInputs) (d : ℕ) : ℝ := inp.V_j (d + 1)

/-- `DensityInc_i = V_i[nDim+1]`. -/
def DensityInc_i (n : ℕ) (inp : FaceInputs) : ℝ := inp.V_i (n + 1)

/-- `DensityInc_j = V_j[nDim+1]`. -/
def DensityInc_j (n : ℕ) (inp : FaceInputs) : ℝ := inp.V_j (n + 1)

/-- Modelled from the spec: `GetInviscidPBProjFlux` (ProjectedFluxAlgebra)
is implemented in `numerics_structure.cpp`, which is not part of the
excerpt.  Per spec §4.1, flux component `k` equals
`density * velocity[k] * (velocity · normal) + pressure * normal[k]`. -/
def GetInviscidPBProjFlux (n : ℕ) (density : ℝ) (velocity : ℕ → ℝ)
    (pressure : ℝ) (normal : ℕ → ℝ) (k : ℕ) : ℝ :=
  density * velocity k * (∑ d ∈ Finset.range n, velocity d * normal d)
    + pressure * normal k

/-- Modelled from the spec: `GetInviscidPBProjJac` (ProjectedFluxAlgebra)
is implemented in `numerics_structure.cpp`, which is not part of the
excerpt.  Per spec §4.1 it is the linearization of `GetInviscidPBProjFlux`
with respect to the momentum unknowns `U = density*velocity`, scaled by
`scale`:  `J[k][m] = scale * (δ_{km} * (velocity·normal)
+ velocity[k] * normal[m])`. -/
def GetInviscidPBProjJac (n : ℕ) (velocity : ℕ → ℝ) (normal : ℕ → ℝ)
    (scale : ℝ) (k m : ℕ) : ℝ :=
  scale * ((if k = m then ∑ d ∈ Finset.range n, velocity d * normal d else 0)
    + velocity k * normal m)

/-! ### CUpwPB_Flow -/

/-- The configuration-derived state of a `CUpwPB_Flow` instance
(constructor lines 301-324). -/
structure CUpwPB_Flow where
  nDim : ℕ
  nVar : ℕ
  implicit : Bool
  gravity : Bool
  Froude : ℝ

/-- `CUpwPB_Flow::CUpwPB_Flow(val_nDim, val_nVar, config)`. -/
def CUpwPB_Flow.construct (val_nDim val_nVar : ℕ) (config : CConfig) :
    CUpwPB_Flow :=
  { nDim := val_nDim
    nVar := val_nVar
    implicit := config.kind_TimeIntScheme_Flow == EULER_IMPLICIT
    gravity := config.gravityForce
    Froude := config.froude }

/-- `MeanDensity = 0.5*(DensityInc_i + DensityInc_j)` (line 360). -/
def upwMeanDensity (n : ℕ) (inp : FaceInputs) : ℝ :=
  0.5 * (DensityInc_i n inp + DensityInc_j n inp)

/-- `MeanVelocity[iDim] = 0.5*(Velocity_i[iDim] + Velocity_j[iDim])` (line 359). -/
def upwMeanVelocity (inp : FaceInputs) (d : ℕ) : ℝ :=
  0.5 * (Velocity_i inp d + Velocity_j inp d)

/-- `Face_Flux = Σ_d MeanDensity*MeanVelocity[d]*Normal[d]` (lines 355-362). -/
def upwFace_Flux (n : ℕ) (inp : FaceInputs) : ℝ :=
  ∑ d ∈ Finset.range n, upwMeanDensity n inp * upwMeanVelocity inp d * inp.Normal d

/-- `CUpwPB_Flow::ComputeResidual` (lines 346-398).  `jin_i`, `jin_j` are
the incoming contents of the caller's Jacobian arrays (untouched when
`implicit` is false). -/
def CUpwPB_Flow.ComputeResidual (k : CUpwPB_Flow) (inp : FaceInputs)
    (jin_i jin_j : ℕ → ℕ → ℝ) : FluxOutput :=
  { residual := fun v =>
      if upwFace_Flux k.nDim inp > 0 then upwFace_Flux k.nDim inp * inp.V_i (v + 1)
      else upwFace_Flux k.nDim inp * inp.V_j (v + 1)
    jac_i :=
      if k.implicit then
        (if upwFace_Flux k.nDim inp > 0 then
          GetInviscidPBProjJac k.nDim (Velocity_i inp) inp.Normal 1
        else fun _ _ => 0)
      else jin_i
    jac_j :=
      if k.implicit then
        (if upwFace_Flux k.nDim inp > 0 then (fun _ _ => 0)
        else GetInviscidPBProjJac k.nDim (Velocity_j inp) inp.Normal 1)
      else jin_j }

/-! ### Quantities shared verbatim by the two central kernels
(the same statement lines occur in `CCentJSTPB_Flow::ComputeResidual`,
lines 443-502, and in `CCentLaxPB_Flow::ComputeResidual`, lines 558-627). -/

/-- `MeanDensity = 0.5*(DensityInc_i+DensityInc_j)` (lines 454 / 577). -/
def MeanDensity (n : ℕ) (inp : FaceInputs) : ℝ :=
  0.5 * (DensityInc_i n inp + DensityInc_j n inp)

/-- `MeanPressure = 0.5*(Pressure_i+Pressure_j)` (lines 455 / 578 / 651). -/
def MeanPressure (inp : FaceInputs) : ℝ :=
  0.5 * (Pressure_i inp + Pressure_j inp)

/-- `MeanVelocity[iDim] = 0.5*(Velocity_i[iDim]+Velocity_j[iDim])` (lines 449 / 580). -/
def MeanVelocity (inp : FaceInputs) (d : ℕ) : ℝ :=
  0.5 * (Velocity_i inp d + Velocity_j inp d)

/-- `ProjVelocity_i = Σ_d Velocity_i[d]*Normal[d]` (lines 482-487 / 607-612). -/
def ProjVelocity_i (n : ℕ) (inp : FaceInputs) : ℝ :=
  ∑ d ∈ Finset.range n, Velocity_i inp d * inp.Normal d

/-- `ProjVelocity_j = Σ_d Velocity_j[d]*Normal[d]` (lines 482-487 / 607-612). -/
def ProjVelocity_j (n : ℕ) (inp : FaceInputs) : ℝ :=
  ∑ d ∈ Finset.range n, Velocity_j inp d * inp.Normal d

/-- `Local_Lambda_i = fabs(2.0*ProjVelocity_i)` (line 490 / 618). -/
def Local_Lambda_i (n : ℕ) (inp : FaceInputs) : ℝ :=
  |2 * ProjVelocity_i n inp|

/-- `Local_Lambda_j = fabs(2.0*ProjVelocity_j)` (line 491 / 619). -/
def Local_Lambda_j (n : ℕ) (inp : FaceInputs) : ℝ :=
  |2 * ProjVelocity_j n inp|

/-- `MeanLambda = 0.5*(Local_Lambda_i+Local_Lambda_j)` (line 492 / 620). -/
def MeanLambda (n : ℕ) (inp : FaceInputs) : ℝ :=
  0.5 * (Local_Lambda_i n inp + Local_Lambda_j n inp)

/-- The divisor `4.0*MeanLambda` appearing in the blending-exponent step
(lines 494-495 / 622-623); the code divides by it with no guard. -/
def phiDenominator (n : ℕ) (inp : FaceInputs) : ℝ :=
  4 * MeanLambda n inp

/-- `Phi_i = pow(Lambda_i/(4.0*MeanLambda), Param_p)` (line 494 / 622).
Note: the numerator is the member `Lambda_i` (an external input), not the
locally computed `Local_Lambda_i`. -/
def Phi_i (p : ℝ) (n : ℕ) (inp : FaceInputs) : ℝ :=
  (inp.Lambda_i / phiDenominator n inp) ^ p

/-- `Phi_j = pow(Lambda_j/(4.0*MeanLambda), Param_p)` (line 495 / 623). -/
def Phi_j (p : ℝ) (n : ℕ) (inp : FaceInputs) : ℝ :=
  (inp.Lambda_j / phiDenominator n inp) ^ p

/-- `StretchingFactor = 4.0*Phi_i*Phi_j/(Phi_i+Phi_j)` (line 496 / 624). -/
def StretchingFactor (p : ℝ) (n : ℕ) (inp : FaceInputs) : ℝ :=
  4 * Phi_i p n inp * Phi_j p n inp / (Phi_i p n inp + Phi_j p n inp)

/-- The denominator `su2double(Neighbor_i)*su2double(Neighbor_j)` of the
neighbor-count scaling (line 498 / 626); divided by with no guard. -/
def scDenominator (inp : FaceInputs) : ℝ :=
  (inp.Neighbor_i : ℝ) * (inp.Neighbor_j : ℝ)

/-- `sc2 = 3.0*(Neighbor_i+Neighbor_j)/(Neighbor_i*Neighbor_j)` (line 498). -/
def sc2 (inp : FaceInputs) : ℝ :=
  3 * ((inp.Neighbor_i : ℝ) + (inp.Neighbor_j : ℝ)) / scDenominator inp

/-- `sc4 = sc2*sc2/4.0` (line 499). -/
def sc4 (inp : FaceInputs) : ℝ :=
  sc2 inp * sc2 inp / 4

/-- `sc0 = 3.0*(Neighbor_i+Neighbor_j)/(Neighbor_i*Neighbor_j)` (line 626). -/
def sc0 (inp : FaceInputs) : ℝ :=
  3 * ((inp.Neighbor_i : ℝ) + (inp.Neighbor_j : ℝ)) / scDenominator inp

/-- The central projected flux used by both central kernels (line 459 / 584):
`GetInviscidPBProjFlux(&MeanDensity, MeanVelocity, &MeanPressure, Normal, ProjFlux)`. -/
def centralProjFlux (n : ℕ) (inp : FaceInputs) (v : ℕ) : ℝ :=
  GetInviscidPBProjFlux n (MeanDensity n inp) (MeanVelocity inp)
    (MeanPressure inp) inp.Normal v

/-- The central-flux Jacobian used by both central kernels (line 467 / 594):
`GetInviscidPBProjJac(&MeanDensity, MeanVelocity, Normal, 0.5, val_Jacobian_i)`. -/
def centralProjJac (n : ℕ) (inp : FaceInputs) (v w : ℕ) : ℝ :=
  GetInviscidPBProjJac n (MeanVelocity inp) inp.Normal 0.5 v w

/-! ### CCentJSTPB_Flow -/

/-- The configuration-derived state of a `CCentJSTPB_Flow` instance
(constructor lines 400-420). -/
structure CCentJSTPB_Flow where
  nDim : ℕ
  nVar : ℕ
  grid_movement : Bool
  implicit : Bool
  gravity : Bool
  Froude : ℝ
  Param_p : ℝ
  Param_Kappa_2 : ℝ
  Param_Kappa_4 : ℝ

/-- `CCentJSTPB_Flow::CCentJSTPB_Flow(val_nDim, val_nVar, config)`. -/
def CCentJSTPB_Flow.construct (val_nDim val_nVar : ℕ) (config : CConfig) :
    CCentJSTPB_Flow :=
  { nDim := val_nDim
    nVar := val_nVar
    grid_movement := config.grid_Movement
    implicit := config.kind_TimeIntScheme_Flow == EULER_IMPLICIT
    gravity := config.gravityForce
    Froude := config.froude
    Param_p := 0.3
    Param_Kappa_2 := config.kappa_2nd_Flow
    Param_Kappa_4 := config.kappa_4th_Flow }

/-- `Diff_U[iVar] = U_i[iVar]-U_j[iVar]` (line 477, JST). -/
def Diff_U (inp : FaceInputs) (v : ℕ) : ℝ := inp.U_i v - inp.U_j v

/-- `Diff_Lapl[iVar] = Und_Lapl_i[iVar]-Und_Lapl_j[iVar]` (line 476). -/
def Diff_Lapl (inp : FaceInputs) (v : ℕ) : ℝ :=
  inp.Und_Lapl_i v - inp.Und_Lapl_j v

/-- `Epsilon_2 = Param_Kappa_2*0.5*(Sensor_i+Sensor_j)*sc2` (line 501). -/
def Epsilon_2 (k : CCentJSTPB_Flow) (inp : FaceInputs) : ℝ :=
  k.Param_Kappa_2 * 0.5 * (inp.Sensor_i + inp.Sensor_j) * sc2 inp

/-- `Epsilon_4 = max(0.0, Param_Kappa_4-Epsilon_2)*sc4` (line 502). -/
def Epsilon_4 (k : CCentJSTPB_Flow) (inp : FaceInputs) : ℝ :=
  max 0 (k.Param_Kappa_4 - Epsilon_2 k inp) * sc4 inp

/-- `cte_0 = (Epsilon_2 + Epsilon_4*su2double(Neighbor_i+1))*StretchingFactor*MeanLambda`
(line 510). -/
def jst_cte_0 (k : CCentJSTPB_Flow) (inp : FaceInputs) : ℝ :=
  (Epsilon_2 k inp + Epsilon_4 k inp * ((inp.Neighbor_i : ℝ) + 1))
    * StretchingFactor k.Param_p k.nDim inp * MeanLambda k.nDim inp

/-- `cte_1 = (Epsilon_2 + Epsilon_4*su2double(Neighbor_j+1))*StretchingFactor*MeanLambda`
(line 511). -/
def jst_cte_1 (k : CCentJSTPB_Flow) (inp : FaceInputs) : ℝ :=
  (Epsilon_2 k inp + Epsilon_4 k inp * ((inp.Neighbor_j : ℝ) + 1))
    * StretchingFactor k.Param_p k.nDim inp * MeanLambda k.nDim inp

/-- `CCentJSTPB_Flow::ComputeResidual` (lines 433-519). -/
def CCentJSTPB_Flow.ComputeResidual (k : CCentJSTPB_Flow) (inp : FaceInputs)
    (jin_i jin_j : ℕ → ℕ → ℝ) : FluxOutput :=
  { residual := fun v =>
      centralProjFlux k.nDim inp v
        + (Epsilon_2 k inp * Diff_U inp v - Epsilon_4 k inp * Diff_Lapl inp v)
          * StretchingFactor k.Param_p k.nDim inp * MeanLambda k.nDim inp
    jac_i :=
      if k.implicit then
        (fun v w => centralProjJac k.nDim inp v w
          + if v = w then jst_cte_0 k inp else 0)
      else jin_i
    jac_j :=
      if k.implicit then
        (fun v w => centralProjJac k.nDim inp v w
          - if v = w then jst_cte_1 k inp else 0)
      else jin_j }

/-! ### CCentLaxPB_Flow -/

/-- The configuration-derived state of a `CCentLaxPB_Flow` instance
(constructor lines 521-539). -/
structure CCentLaxPB_Flow where
  nDim : ℕ
  nVar : ℕ
  implicit : Bool
  grid_movement : Bool
  gravity : Bool
  Froude : ℝ
  Param_p : ℝ
  Param_Kappa_0 : ℝ

/-- `CCentLaxPB_Flow::CCentLaxPB_Flow(val_nDim, val_nVar, config)`. -/
def CCentLaxPB_Flow.construct (val_nDim val_nVar : ℕ) (config : CConfig) :
    CCentLaxPB_Flow :=
  { nDim := val_nDim
    nVar := val_nVar
    implicit := config.kind_TimeIntScheme_Flow == EULER_IMPLICIT
    grid_movement := config.grid_Movement
    gravity := config.gravityForce
    Froude := config.froude
    Param_p := 0.3
    Param_Kappa_0 := config.kappa_1st_Flow }

/-- The local conservative array of the Lax kernel (lines 554, 571-573):
`su2double U_i[3] = {0,0,0}` then `U_i[iDim] = DensityInc_i*Velocity_i[iDim]`
for `iDim < nDim`. -/
def laxU_i (n : ℕ) (inp : FaceInputs) (v : ℕ) : ℝ :=
  if v < n then DensityInc_i n inp * Velocity_i inp v else 0

/-- The local conservative array of the Lax kernel for side j (lines 554, 571-573). -/
def laxU_j (n : ℕ) (inp : FaceInputs) (v : ℕ) : ℝ :=
  if v < n then DensityInc_j n inp * Velocity_j inp v else 0

/-- `Diff_U[iVar] = U_i[iVar]-U_j[iVar]` on the locally recomputed
conservative arrays (lines 602-603, Lax). -/
def laxDiff_U (n : ℕ) (inp : FaceInputs) (v : ℕ) : ℝ :=
  laxU_i n inp v - laxU_j n inp v

/-- `Epsilon_0 = Param_Kappa_0*sc0*su2double(nDim)/3.0` (line 627). -/
def Epsilon_0 (k : CCentLaxPB_Flow) (inp : FaceInputs) : ℝ :=
  k.Param_Kappa_0 * sc0 inp * (k.nDim : ℝ) / 3

/-- `CCentLaxPB_Flow::ComputeResidual` (lines 551-640). -/
def CCentLaxPB_Flow.ComputeResidual (k : CCentLaxPB_Flow) (inp : FaceInputs)
    (jin_i jin_j : ℕ → ℕ → ℝ) : FluxOutput :=
  { residual := fun v =>
      centralProjFlux k.nDim inp v
        + Epsilon_0 k inp * laxDiff_U k.nDim inp v
          * StretchingFactor k.Param_p k.nDim inp * MeanLambda k.nDim inp
    jac_i :=
      if k.implicit then
        (fun v w => centralProjJac k.nDim inp v w
          + if v = w then
              Epsilon_0 k inp * StretchingFactor k.Param_p k.nDim inp
                * MeanLambda k.nDim inp
            else 0)
      else jin_i
    jac_j :=
      if k.implicit then
        (fun v w => centralProjJac k.nDim inp v w
          - if v = w then
              Epsilon_0 k inp * StretchingFactor k.Param_p k.nDim inp
                * MeanLambda k.nDim inp
            else 0)
      else jin_j }

/-! ### CPressureSource -/

/-- The state of a `CPressureSource` instance (constructor line 642). -/
structure CPressureSource where
  nDim : ℕ
  nVar : ℕ

/-- `CPressureSource::CPressureSource(val_nDim, val_nVar, config)`. -/
def CPressureSource.construct (val_nDim val_nVar : ℕ) (_config : CConfig) :
    CPressureSource :=
  { nDim := val_nDim, nVar := val_nVar }

/-- `CPressureSource::ComputeResidual` (lines 646-656): writes
`val_residual[iDim] = MeanPressure*Normal[iDim]` and never touches
`val_Jacobian_i` (returned unchanged). -/
def CPressureSource.ComputeResidual (_k : CPressureSource) (inp : FaceInputs)
    (jin_i : ℕ → ℕ → ℝ) : (ℕ → ℝ) × (ℕ → ℕ → ℝ) :=
  (fun d => MeanPressure inp * inp.Normal d, jin_i)

/-! ### The spec-side version of the blending exponents

Spec §4.3 steps 5-6 state the exponents in terms of the spectral radii
evaluated in the same call (`Local_Lambda_i/_j`); these definitions follow
the spec's words, to be compared with `Phi_i`/`Phi_j` above, which follow
the source (numerator = the member `Lambda_i`/`Lambda_j`). -/

/-- The blending exponent as the spec's words state it:
`φ_i = (λ_i/(4·meanLambda))^p` with `λ_i = |2·(velocity_i·normal)|`
evaluated in the same call. -/
def Phi_i_specLocal (p : ℝ) (n : ℕ) (inp : FaceInputs) : ℝ :=
  (Local_Lambda_i n inp / phiDenominator n inp) ^ p

/-- The blending exponent for side j as the spec's words state it. -/
def Phi_j_specLocal (p : ℝ) (n : ℕ) (inp : FaceInputs) : ℝ :=
  (Local_Lambda_j n inp / phiDenominator n inp) ^ p

/-! ### Input transformations used by the scale-invariance claim -/

/-- The same face inputs with the normal replaced by `2·N`. -/
def doubleNormal (inp : FaceInputs) : FaceInputs :=
  { inp with Normal := fun d => 2 * inp.Normal d }

/-- The same face inputs with the normal and the externally supplied
spectral radii `Lambda_i`, `Lambda_j` all doubled. -/
def doubleNormalLambda (inp : FaceInputs) : FaceInputs :=
  { inp with
    Normal := fun d => 2 * inp.Normal d
    Lambda_i := 2 * inp.Lambda_i
    Lambda_j := 2 * inp.Lambda_j }

/-! ### Concrete values used by witnesses and counterexamples -/

/-- All-zero incoming Jacobian array contents. -/
def zeroJac : ℕ → ℕ → ℝ := fun _ _ => 0

/-- A configuration with explicit time integration. -/
def cfg0 : CConfig :=
  { kind_TimeIntScheme_Flow := 0
    gravityForce := false
    froude := 1
    kappa_2nd_Flow := 1
    kappa_4th_Flow := 1
    kappa_1st_Flow := 1
    grid_Movement := false }

/-- A configuration with implicit (EULER_IMPLICIT) time integration. -/
def cfgImp : CConfig :=
  { kind_TimeIntScheme_Flow := EULER_IMPLICIT
    gravityForce := false
    froude := 1
    kappa_2nd_Flow := 1
    kappa_4th_Flow := 1
    kappa_1st_Flow := 1
    grid_Movement := false }

/-- A 2-D face state: `p = 0`, `velocity_i = velocity_j = (1,0)`,
`density_i = density_j = 1` (index 3 = nDim+1), normal `(1,0)`,
neighbor counts 3, member spectral radii 4. -/
def sampleInput : FaceInputs :=
  { V_i := fun i => if i = 1 then 1 else if i = 3 then 1 else 0
    V_j := fun i => if i = 1 then 1 else if i = 3 then 1 else 0
    Normal := fun d => if d = 0 then 1 else 0
    U_i := fun _ => 0
    U_j := fun _ => 0
    Und_Lapl_i := fun _ => 0
    Und_Lapl_j := fun _ => 0
    Sensor_i := 0
    Sensor_j := 0
    Neighbor_i := 3
    Neighbor_j := 3
    Lambda_i := 4
    Lambda_j := 4 }

/-- A configuration with gravity enabled and a different Froude number,
otherwise identical to `cfgImp`. -/
def cfgImpGravity : CConfig :=
  { kind_TimeIntScheme_Flow := EULER_IMPLICIT
    gravityForce := true
    froude := 10
    kappa_2nd_Flow := 1
    kappa_4th_Flow := 1
    kappa_1st_Flow := 1
    grid_Movement := false }

/-- The `CPressureSource` example input of spec §8.5:
`pressure_i = 10`, `pressure_j = 20`, `normal = (1,0)`. -/
def pressureExampleInput : FaceInputs :=
  { V_i := fun i => if i = 0 then 10 else 0
    V_j := fun i => if i = 0 then 20 else 0
    Normal := fun d => if d = 0 then 1 else 0
    U_i := fun _ => 0
    U_j := fun _ => 0
    Und_Lapl_i := fun _ => 0
    Und_Lapl_j := fun _ => 0
    Sensor_i := 0
    Sensor_j := 0
    Neighbor_i := 1
    Neighbor_j := 1
    Lambda_i := 0
    Lambda_j := 0 }

/-- A 2-D face state whose externally supplied spectral radii (16) differ
from the locally evaluated ones (`|2·(v·n)| = 2`): `p = 0`,
`velocity_i = velocity_j = (1,0)`, densities 1, normal `(1,0)`. -/
def mismatchInput : FaceInputs :=
  { V_i := fun i => if i = 1 then 1 else if i = 3 then 1 else 0
    V_j := fun i => if i = 1 then 1 else if i = 3 then 1 else 0
    Normal := fun d => if d = 0 then 1 else 0
    U_i := fun _ => 0
    U_j := fun _ => 0
    Und_Lapl_i := fun _ => 0
    Und_Lapl_j := fun _ => 0
    Sensor_i := 0
    Sensor_j := 0
    Neighbor_i := 3
    Neighbor_j := 3
    Lambda_i := 16
    Lambda_j := 16 }

/-- A degenerate 2-D face state with zero velocity on both sides (so both
projected velocities vanish): densities 1, normal `(1,0)`. -/
def degenerateInput : FaceInputs :=
  { V_i := fun i => if i = 3 then 1 else 0
    V_j := fun i => if i = 3 then 1 else 0
    Normal := fun d => if d = 0 then 1 else 0
    U_i := fun _ => 0
    U_j := fun _ => 0
    Und_Lapl_i := fun _ => 0
    Und_Lapl_j := fun _ => 0
    Sensor_i := 0
    Sensor_j := 0
    Neighbor_i := 3
    Neighbor_j := 3
    Lambda_i := 4
    Lambda_j := 4 }

/-- Explicit-mode configuration with `κ0 = 3/4`, used by the
scale-invariance counterexample. -/
def cfgLax : CConfig :=
  { kind_TimeIntScheme_Flow := 0
    gravityForce := false
    froude := 1
    kappa_2nd_Flow := 1
    kappa_4th_Flow := 1
    kappa_1st_Flow := 3 / 4
    grid_Movement := false }

/-- A 2-D face state for the scale-invariance counterexample:
`p = 0`, `velocity_i = (1,0)`, `velocity_j = (0,0)`, densities 1,
normal `(1,0)`, neighbor counts 3, member spectral radii 4. -/
def scaleCexInput : FaceInputs :=
  { V_i := fun i => if i = 1 then 1 else if i = 3 then 1 else 0
    V_j := fun i => if i = 3 then 1 else 0
    Normal := fun d => if d = 0 then 1 else 0
    U_i := fun _ => 0
    U_j := fun _ => 0
    Und_Lapl_i := fun _ => 0
    Und_Lapl_j := fun _ => 0
    Sensor_i := 0
    Sensor_j := 0
    Neighbor_i := 3
    Neighbor_j := 3
    Lambda_i := 4
    Lambda_j := 4 }

end

/-! ## Theorems -/

noncomputable section

/-- C2: for every `CUpwPB_Flow::ComputeResidual` call, the face flux equals
`meanDensity * (meanVelocity · normal)`; if it is positive every residual
component `iVar` equals `Face_Flux * velocity_i[iVar]`, otherwise
(including the `Face_Flux == 0` tie-break) every residual component equals
`Face_Flux * velocity_j[iVar]`. -/
theorem C2_upwind_donor_selection (k : CUpwPB_Flow) (inp : FaceInputs)
    (jin_i jin_j : ℕ → ℕ → ℝ) :
    upwFace_Flux k.nDim inp
      = upwMeanDensity k.nDim inp
        * (∑ d ∈ Finset.range k.nDim, upwMeanVelocity inp d * inp.Normal d)
    ∧ (upwFace_Flux k.nDim inp > 0 →
        ∀ v, (k.ComputeResidual inp jin_i jin_j).residual v
          = upwFace_Flux k.nDim inp * Velocity_i inp v)
    ∧ (¬ upwFace_Flux k.nDim inp > 0 →
        ∀ v, (k.ComputeResidual inp jin_i jin_j).residual v
          = upwFace_Flux k.nDim inp * Velocity_j inp v) := by
  refine ⟨?_, ?_, ?_⟩
  · rw [upwFace_Flux, Finset.mul_sum]
    exact Finset.sum_congr rfl fun d _ => by ring
  · intro h v
    simp [CUpwPB_Flow.ComputeResidual, h, Velocity_i]
  · intro h v
    simp [CUpwPB_Flow.ComputeResidual, h, Velocity_j]

/-- Witness for C2 at a concrete input with positive face flux. -/
theorem C2_upwind_donor_selection_witness :
    upwFace_Flux 2 sampleInput > 0
    ∧ ((CUpwPB_Flow.construct 2 2 cfg0).ComputeResidual sampleInput zeroJac zeroJac).residual 0
        = upwFace_Flux 2 sampleInput * Velocity_i sampleInput 0 := by
  have h : upwFace_Flux 2 sampleInput > 0 := by
    simp only [upwFace_Flux, upwMeanDensity, upwMeanVelocity, DensityInc_i,
      DensityInc_j, Velocity_i, Velocity_j, sampleInput, Finset.sum_range_succ,
      Finset.sum_range_zero]
    norm_num
  exact ⟨h, (C2_upwind_donor_selection (CUpwPB_Flow.construct 2 2 cfg0)
    sampleInput zeroJac zeroJac).2.1 h 0⟩

/-- C3: for every `CCentJSTPB_Flow::ComputeResidual` call, the residual
after the central flux step is incremented, in each component, by
`(ε2·ΔU − ε4·ΔLaplacian)·stretch·meanLambda`, with
`ε2 = κ2·0.5(sensor_i+sensor_j)·sc2`, `ε4 = max(0, κ4−ε2)·sc4`,
`sc2 = 3(n_i+n_j)/(n_i·n_j)`, `sc4 = sc2²/4`. -/
theorem C3_jst_dissipation_residual (k : CCentJSTPB_Flow) (inp : FaceInputs)
    (jin_i jin_j : ℕ → ℕ → ℝ) (v : ℕ) :
    (k.ComputeResidual inp jin_i jin_j).residual v
      = centralProjFlux k.nDim inp v
        + (k.Param_Kappa_2 * 0.5 * (inp.Sensor_i + inp.Sensor_j)
              * (3 * ((inp.Neighbor_i : ℝ) + (inp.Neighbor_j : ℝ))
                  / ((inp.Neighbor_i : ℝ) * (inp.Neighbor_j : ℝ)))
              * (inp.U_i v - inp.U_j v)
            - max 0 (k.Param_Kappa_4
                  - k.Param_Kappa_2 * 0.5 * (inp.Sensor_i + inp.Sensor_j)
                    * (3 * ((inp.Neighbor_i : ℝ) + (inp.Neighbor_j : ℝ))
                        / ((inp.Neighbor_i : ℝ) * (inp.Neighbor_j : ℝ))))
                * ((3 * ((inp.Neighbor_i : ℝ) + (inp.Neighbor_j : ℝ))
                    / ((inp.Neighbor_i : ℝ) * (inp.Neighbor_j : ℝ))) ^ 2 / 4)
                * (inp.Und_Lapl_i v - inp.Und_Lapl_j v))
          * StretchingFactor k.Param_p k.nDim inp * MeanLambda k.nDim inp := by
  show centralProjFlux k.nDim inp v
      + (Epsilon_2 k inp * Diff_U inp v - Epsilon_4 k inp * Diff_Lapl inp v)
        * StretchingFactor k.Param_p k.nDim inp * MeanLambda k.nDim inp = _
  simp only [Epsilon_2, Epsilon_4, sc2, sc4, scDenominator, Diff_U, Diff_Lapl]
  ring

/-- C4: for every implicit-mode `CCentJSTPB_Flow::ComputeResidual` call,
the dissipation linearization adds `(ε2+ε4·(n_i+1))·stretch·meanLambda` to
every diagonal entry of the side-i Jacobian, subtracts
`(ε2+ε4·(n_j+1))·stretch·meanLambda` from every diagonal entry of the
side-j Jacobian, and leaves all off-diagonal entries unchanged (equal to
the central-flux Jacobian). -/
theorem C4_jst_jacobian_diagonal (k : CCentJSTPB_Flow) (inp : FaceInputs)
    (jin_i jin_j : ℕ → ℕ → ℝ) (h : k.implicit = true) :
    (∀ v, (k.ComputeResidual inp jin_i jin_j).jac_i v v
        = centralProjJac k.nDim inp v v
          + (Epsilon_2 k inp + Epsilon_4 k inp * ((inp.Neighbor_i : ℝ) + 1))
            * StretchingFactor k.Param_p k.nDim inp * MeanLambda k.nDim inp)
    ∧ (∀ v, (k.ComputeResidual inp jin_i jin_j).jac_j v v
        = centralProjJac k.nDim inp v v
          - (Epsilon_2 k inp + Epsilon_4 k inp * ((inp.Neighbor_j : ℝ) + 1))
            * StretchingFactor k.Param_p k.nDim inp * MeanLambda k.nDim inp)
    ∧ (∀ v w, v ≠ w →
        (k.ComputeResidual inp jin_i jin_j).jac_i v w
            = centralProjJac k.nDim inp v w
        ∧ (k.ComputeResidual inp jin_i jin_j).jac_j v w
            = centralProjJac k.nDim inp v w) := by
  refine ⟨fun v => ?_, fun v => ?_, fun v w hvw => ⟨?_, ?_⟩⟩
  · simp [CCentJSTPB_Flow.ComputeResidual, h, jst_cte_0]
  · simp [CCentJSTPB_Flow.ComputeResidual, h, jst_cte_1]
  · simp [CCentJSTPB_Flow.ComputeResidual, h, hvw]
  · simp [CCentJSTPB_Flow.ComputeResidual, h, hvw]

/-- Witness for C4 at a concrete implicit-mode kernel and input. -/
theorem C4_jst_jacobian_diagonal_witness :
    (CCentJSTPB_Flow.construct 2 2 cfgImp).implicit = true
    ∧ ((CCentJSTPB_Flow.construct 2 2 cfgImp).ComputeResidual sampleInput
          zeroJac zeroJac).jac_i 0 0
        = centralProjJac (CCentJSTPB_Flow.construct 2 2 cfgImp).nDim sampleInput 0 0
          + (Epsilon_2 (CCentJSTPB_Flow.construct 2 2 cfgImp) sampleInput
              + Epsilon_4 (CCentJSTPB_Flow.construct 2 2 cfgImp) sampleInput
                * ((sampleInput.Neighbor_i : ℝ) + 1))
            * StretchingFactor (CCentJSTPB_Flow.construct 2 2 cfgImp).Param_p
                (CCentJSTPB_Flow.construct 2 2 cfgImp).nDim sampleInput
            * MeanLambda (CCentJSTPB_Flow.construct 2 2 cfgImp).nDim sampleInput := by
  exact ⟨rfl, (C4_jst_jacobian_diagonal (CCentJSTPB_Flow.construct 2 2 cfgImp)
    sampleInput zeroJac zeroJac rfl).1 0⟩

/-- C6: every `CPressureSource::ComputeResidual` call writes
`residual[d] = 0.5(pressure_i+pressure_j)·normal[d]` and never writes the
Jacobian output; at `pressure_i = 10`, `pressure_j = 20`, `normal = (1,0)`
the residual is `(15, 0)`. -/
theorem C6_pressure_source (k : CPressureSource) (inp : FaceInputs)
    (jin : ℕ → ℕ → ℝ) :
    (∀ d, (k.ComputeResidual inp jin).1 d
        = 0.5 * (Pressure_i inp + Pressure_j inp) * inp.Normal d)
    ∧ (k.ComputeResidual inp jin).2 = jin
    ∧ ((CPressureSource.construct 2 2 cfg0).ComputeResidual
          pressureExampleInput zeroJac).1 0 = 15
    ∧ ((CPressureSource.construct 2 2 cfg0).ComputeResidual
          pressureExampleInput zeroJac).1 1 = 0 := by
  refine ⟨fun d => rfl, rfl, ?_, ?_⟩
  · simp [CPressureSource.ComputeResidual, MeanPressure, Pressure_i, Pressure_j,
      pressureExampleInput]
    norm_num
  · simp [CPressureSource.ComputeResidual, MeanPressure, Pressure_i, Pressure_j,
      pressureExampleInput]

/-- C5: for every `CCentLaxPB_Flow::ComputeResidual` call, the dissipation
added to each residual component is `ε0·ΔU·stretch·meanLambda` with
`ε0 = κ0·sc0·dim/3`, `sc0 = 3(n_i+n_j)/(n_i·n_j)` and
`ΔU = density_i·velocity_i − density_j·velocity_j` (no Laplacian term); in
implicit mode each diagonal entry of the side-i Jacobian is incremented by
`ε0·stretch·meanLambda` and each diagonal entry of the side-j Jacobian is
decremented by the same amount. -/
theorem C5_lax_dissipation (k : CCentLaxPB_Flow) (inp : FaceInputs)
    (jin_i jin_j : ℕ → ℕ → ℝ) :
    (∀ v, v < k.nDim →
        (k.ComputeResidual inp jin_i jin_j).residual v
          = centralProjFlux k.nDim inp v
            + (k.Param_Kappa_0
                * (3 * ((inp.Neighbor_i : ℝ) + (inp.Neighbor_j : ℝ))
                    / ((inp.Neighbor_i : ℝ) * (inp.Neighbor_j : ℝ)))
                * (k.nDim : ℝ) / 3)
              * (DensityInc_i k.nDim inp * Velocity_i inp v
                  - DensityInc_j k.nDim inp * Velocity_j inp v)
              * StretchingFactor k.Param_p k.nDim inp * MeanLambda k.nDim inp)
    ∧ (k.implicit = true → ∀ v,
        (k.ComputeResidual inp jin_i jin_j).jac_i v v
            = centralProjJac k.nDim inp v v
              + Epsilon_0 k inp * StretchingFactor k.Param_p k.nDim inp
                * MeanLambda k.nDim inp
        ∧ (k.ComputeResidual inp jin_i jin_j).jac_j v v
            = centralProjJac k.nDim inp v v
              - Epsilon_0 k inp * StretchingFactor k.Param_p k.nDim inp
                * MeanLambda k.nDim inp) := by
  constructor
  · intro v hv
    show centralProjFlux k.nDim inp v
        + Epsilon_0 k inp * laxDiff_U k.nDim inp v
          * StretchingFactor k.Param_p k.nDim inp * MeanLambda k.nDim inp = _
    simp only [Epsilon_0, sc0, scDenominator, laxDiff_U, laxU_i, laxU_j,
      if_pos hv]
  · intro h v
    constructor
    · simp [CCentLaxPB_Flow.ComputeResidual, h]
    · simp [CCentLaxPB_Flow.ComputeResidual, h]

/-- Witness for C5 at a concrete implicit-mode kernel and input. -/
theorem C5_lax_dissipation_witness :
    (0 : ℕ) < (CCentLaxPB_Flow.construct 2 2 cfgImp).nDim
    ∧ (CCentLaxPB_Flow.construct 2 2 cfgImp).implicit = true
    ∧ ((CCentLaxPB_Flow.construct 2 2 cfgImp).ComputeResidual sampleInput
          zeroJac zeroJac).residual 0
        = centralProjFlux (CCentLaxPB_Flow.construct 2 2 cfgImp).nDim sampleInput 0
          + ((CCentLaxPB_Flow.construct 2 2 cfgImp).Param_Kappa_0
              * (3 * ((sampleInput.Neighbor_i : ℝ) + (sampleInput.Neighbor_j : ℝ))
                  / ((sampleInput.Neighbor_i : ℝ) * (sampleInput.Neighbor_j : ℝ)))
              * ((CCentLaxPB_Flow.construct 2 2 cfgImp).nDim : ℝ) / 3)
            * (DensityInc_i (CCentLaxPB_Flow.construct 2 2 cfgImp).nDim sampleInput
                  * Velocity_i sampleInput 0
                - DensityInc_j (CCentLaxPB_Flow.construct 2 2 cfgImp).nDim sampleInput
                  * Velocity_j sampleInput 0)
            * StretchingFactor (CCentLaxPB_Flow.construct 2 2 cfgImp).Param_p
                (CCentLaxPB_Flow.construct 2 2 cfgImp).nDim sampleInput
            * MeanLambda (CCentLaxPB_Flow.construct 2 2 cfgImp).nDim sampleInput
    ∧ ((CCentLaxPB_Flow.construct 2 2 cfgImp).ComputeResidual sampleInput
          zeroJac zeroJac).jac_i 0 0
        = centralProjJac (CCentLaxPB_Flow.construct 2 2 cfgImp).nDim sampleInput 0 0
          + Epsilon_0 (CCentLaxPB_Flow.construct 2 2 cfgImp) sampleInput
            * StretchingFactor (CCentLaxPB_Flow.construct 2 2 cfgImp).Param_p
                (CCentLaxPB_Flow.construct 2 2 cfgImp).nDim sampleInput
            * MeanLambda (CCentLaxPB_Flow.construct 2 2 cfgImp).nDim sampleInput := by
  refine ⟨by decide, rfl, ?_, ?_⟩
  · exact (C5_lax_dissipation (CCentLaxPB_Flow.construct 2 2 cfgImp)
      sampleInput zeroJac zeroJac).1 0 (by decide)
  · exact ((C5_lax_dissipation (CCentLaxPB_Flow.construct 2 2 cfgImp)
      sampleInput zeroJac zeroJac).2 rfl 0).1

/-- C9: in both central kernels the neighbor-count scaling divides by
`Neighbor_i·Neighbor_j` with no guard; that denominator is nonzero exactly
when both neighbor counts are nonzero, and under the precondition
`Neighbor_i > 0` and `Neighbor_j > 0` the division-by-zero state is
unreachable. -/
theorem C9_neighbor_scaling_welldefined (inp : FaceInputs) :
    sc2 inp = 3 * ((inp.Neighbor_i : ℝ) + (inp.Neighbor_j : ℝ)) / scDenominator inp
    ∧ sc0 inp = 3 * ((inp.Neighbor_i : ℝ) + (inp.Neighbor_j : ℝ)) / scDenominator inp
    ∧ (scDenominator inp ≠ 0 ↔ inp.Neighbor_i ≠ 0 ∧ inp.Neighbor_j ≠ 0)
    ∧ (0 < inp.Neighbor_i → 0 < inp.Neighbor_j → scDenominator inp ≠ 0) := by
  refine ⟨rfl, rfl, ?_, ?_⟩
  · rw [scDenominator, mul_ne_zero_iff, Nat.cast_ne_zero, Nat.cast_ne_zero]
  · intro hi hj
    rw [scDenominator]
    exact mul_ne_zero (Nat.cast_ne_zero.2 hi.ne') (Nat.cast_ne_zero.2 hj.ne')

/-- Witness for C9 at a concrete input with positive neighbor counts. -/
theorem C9_neighbor_scaling_welldefined_witness :
    (0 < sampleInput.Neighbor_i ∧ 0 < sampleInput.Neighbor_j)
    ∧ scDenominator sampleInput ≠ 0 := by
  refine ⟨⟨by decide, by decide⟩, ?_⟩
  exact (C9_neighbor_scaling_welldefined sampleInput).2.2.2 (by decide) (by decide)

/-- C10: for each of the three flux kernels, two `ComputeResidual` calls
with identical per-face inputs but kernels constructed from configurations
that differ only in the gravity flag and the Froude number produce
identical residual and Jacobian outputs: gravity and Froude are stored at
construction and never read by the residual/Jacobian computation. -/
theorem C10_gravity_froude_noninterference (nd nv : ℕ) (c1 c2 : CConfig)
    (hts : c1.kind_TimeIntScheme_Flow = c2.kind_TimeIntScheme_Flow)
    (hk2 : c1.kappa_2nd_Flow = c2.kappa_2nd_Flow)
    (hk4 : c1.kappa_4th_Flow = c2.kappa_4th_Flow)
    (hk0 : c1.kappa_1st_Flow = c2.kappa_1st_Flow)
    (hgm : c1.grid_Movement = c2.grid_Movement)
    (inp : FaceInputs) (jin_i jin_j : ℕ → ℕ → ℝ) :
    (CUpwPB_Flow.construct nd nv c1).ComputeResidual inp jin_i jin_j
      = (CUpwPB_Flow.construct nd nv c2).ComputeResidual inp jin_i jin_j
    ∧ (CCentJSTPB_Flow.construct nd nv c1).ComputeResidual inp jin_i jin_j
      = (CCentJSTPB_Flow.construct nd nv c2).ComputeResidual inp jin_i jin_j
    ∧ (CCentLaxPB_Flow.construct nd nv c1).ComputeResidual inp jin_i jin_j
      = (CCentLaxPB_Flow.construct nd nv c2).ComputeResidual inp jin_i jin_j := by
  obtain ⟨t1, g1, f1, a1, b1, d1, m1⟩ := c1
  obtain ⟨t2, g2, f2, a2, b2, d2, m2⟩ := c2
  simp only at hts hk2 hk4 hk0 hgm
  subst hts hk2 hk4 hk0 hgm
  exact ⟨rfl, rfl, rfl⟩

/-- Witness for C10 at two concrete configurations differing only in the
gravity flag and the Froude number. -/
theorem C10_gravity_froude_noninterference_witness :
    (cfgImp.gravityForce ≠ cfgImpGravity.gravityForce
      ∧ cfgImp.froude ≠ cfgImpGravity.froude)
    ∧ (CUpwPB_Flow.construct 2 2 cfgImp).ComputeResidual sampleInput zeroJac zeroJac
        = (CUpwPB_Flow.construct 2 2 cfgImpGravity).ComputeResidual sampleInput
            zeroJac zeroJac := by
  refine ⟨⟨by decide, by norm_num [cfgImp, cfgImpGravity]⟩, ?_⟩
  exact (C10_gravity_froude_noninterference 2 2 cfgImp cfgImpGravity
    rfl rfl rfl rfl rfl sampleInput zeroJac zeroJac).1

/-- C8 counterexample: the claim that the division by `4·meanLambda` is
guarded is false — at a concrete input with both projected velocities zero
the divisor the code divides by is exactly zero (no epsilon clamp and no
special case exists in either central kernel). -/
theorem C8_counterexample :
    ProjVelocity_i 2 degenerateInput = 0
    ∧ ProjVelocity_j 2 degenerateInput = 0
    ∧ phiDenominator 2 degenerateInput = 0 := by
  have hi : ProjVelocity_i 2 degenerateInput = 0 := by
    simp [ProjVelocity_i, Velocity_i, degenerateInput, Finset.sum_range_succ]
  have hj : ProjVelocity_j 2 degenerateInput = 0 := by
    simp [ProjVelocity_j, Velocity_j, degenerateInput, Finset.sum_range_succ]
  refine ⟨hi, hj, ?_⟩
  rw [phiDenominator, MeanLambda, Local_Lambda_i, Local_Lambda_j, hi, hj]
  norm_num

/-- C8 (amended): the division by `4·meanLambda` in the blending-exponent
step of both central kernels is NOT guarded: whenever both projected
velocities are zero the divisor `4·meanLambda` is exactly zero, and
`φ_i`, `φ_j` are nevertheless computed by dividing by it. -/
theorem C8_amended_no_guard (n : ℕ) (inp : FaceInputs)
    (hi : ProjVelocity_i n inp = 0) (hj : ProjVelocity_j n inp = 0) :
    phiDenominator n inp = 0
    ∧ (∀ p : ℝ, Phi_i p n inp = (inp.Lambda_i / 0) ^ p
        ∧ Phi_j p n inp = (inp.Lambda_j / 0) ^ p) := by
  have hden : phiDenominator n inp = 0 := by
    rw [phiDenominator, MeanLambda, Local_Lambda_i, Local_Lambda_j, hi, hj]
    norm_num
  exact ⟨hden, fun p => ⟨by rw [Phi_i, hden], by rw [Phi_j, hden]⟩⟩

/-- Witness for the amended C8 at the concrete degenerate input. -/
theorem C8_amended_no_guard_witness :
    (ProjVelocity_i 2 degenerateInput = 0 ∧ ProjVelocity_j 2 degenerateInput = 0)
    ∧ phiDenominator 2 degenerateInput = 0 := by
  have hi : ProjVelocity_i 2 degenerateInput = 0 := by
    simp [ProjVelocity_i, Velocity_i, degenerateInput, Finset.sum_range_succ]
  have hj : ProjVelocity_j 2 degenerateInput = 0 := by
    simp [ProjVelocity_j, Velocity_j, degenerateInput, Finset.sum_range_succ]
  exact ⟨⟨hi, hj⟩, (C8_amended_no_guard 2 degenerateInput hi hj).1⟩

/-- C1 counterexample: the blending exponents are NOT computed from the
spectral radii evaluated in the call.  At a concrete input whose member
spectral radius `Lambda_i = 16` differs from the locally evaluated
`λ_i = |2·(velocity_i·normal)| = 2`, the exponent the kernel uses
(`Phi_i`, from the member) differs from the spec's `φ_i` (from the local
value); the kernels are constructed with `Param_p = 0.3`. -/
theorem C1_counterexample :
    (CCentJSTPB_Flow.construct 2 2 cfgImp).Param_p = 0.3
    ∧ Phi_i 0.3 2 mismatchInput ≠ Phi_i_specLocal 0.3 2 mismatchInput := by
  refine ⟨rfl, ?_⟩
  have hpi : ProjVelocity_i 2 mismatchInput = 1 := by
    simp [ProjVelocity_i, Velocity_i, mismatchInput, Finset.sum_range_succ]
  have hpj : ProjVelocity_j 2 mismatchInput = 1 := by
    simp [ProjVelocity_j, Velocity_j, mismatchInput, Finset.sum_range_succ]
  have hml : MeanLambda 2 mismatchInput = 2 := by
    rw [MeanLambda, Local_Lambda_i, Local_Lambda_j, hpi, hpj, mul_one, abs_two]
    norm_num
  have hden : phiDenominator 2 mismatchInput = 8 := by
    rw [phiDenominator, hml]; norm_num
  have hcode : Phi_i 0.3 2 mismatchInput = (2 : ℝ) ^ (0.3 : ℝ) := by
    rw [Phi_i, hden, show mismatchInput.Lambda_i = 16 from rfl,
      show (16 : ℝ) / 8 = 2 by norm_num]
  have hll : Local_Lambda_i 2 mismatchInput = 2 := by
    rw [Local_Lambda_i, hpi, mul_one, abs_two]
  have hspec : Phi_i_specLocal 0.3 2 mismatchInput = (1 / 4 : ℝ) ^ (0.3 : ℝ) := by
    rw [Phi_i_specLocal, hden, hll, show (2 : ℝ) / 8 = 1 / 4 by norm_num]
  rw [hcode, hspec]
  have hlt : (1 / 4 : ℝ) ^ (0.3 : ℝ) < (2 : ℝ) ^ (0.3 : ℝ) :=
    Real.rpow_lt_rpow (by norm_num) (by norm_num) (by norm_num)
  exact fun he => absurd he.symm hlt.ne

/-- C1 (amended): in every `ComputeResidual` call of the JST and Lax
kernels the blending exponents are computed from the externally supplied
member spectral radii `Lambda_i`, `Lambda_j` — not from the spectral radii
evaluated in the call — while `meanLambda = 0.5(λ_i+λ_j)` is built from
the locally evaluated `λ = |2·(velocity·normal)|`, and the stretching
factor equals `4φ_iφ_j/(φ_i+φ_j)`. -/
theorem C1_amended_member_lambda (nd nv : ℕ) (config : CConfig)
    (inp : FaceInputs) (ji jj : ℕ → ℕ → ℝ) (v : ℕ) :
    ((CCentJSTPB_Flow.construct nd nv config).ComputeResidual inp ji jj).residual v
      = centralProjFlux nd inp v
        + (Epsilon_2 (CCentJSTPB_Flow.construct nd nv config) inp * Diff_U inp v
            - Epsilon_4 (CCentJSTPB_Flow.construct nd nv config) inp
              * Diff_Lapl inp v)
          * (4 * (inp.Lambda_i
                / (4 * (0.5 * (|2 * ProjVelocity_i nd inp|
                    + |2 * ProjVelocity_j nd inp|)))) ^ (0.3 : ℝ)
              * (inp.Lambda_j
                / (4 * (0.5 * (|2 * ProjVelocity_i nd inp|
                    + |2 * ProjVelocity_j nd inp|)))) ^ (0.3 : ℝ)
            / ((inp.Lambda_i
                / (4 * (0.5 * (|2 * ProjVelocity_i nd inp|
                    + |2 * ProjVelocity_j nd inp|)))) ^ (0.3 : ℝ)
              + (inp.Lambda_j
                / (4 * (0.5 * (|2 * ProjVelocity_i nd inp|
                    + |2 * ProjVelocity_j nd inp|)))) ^ (0.3 : ℝ)))
          * (0.5 * (|2 * ProjVelocity_i nd inp| + |2 * ProjVelocity_j nd inp|))
    ∧ ((CCentLaxPB_Flow.construct nd nv config).ComputeResidual inp ji jj).residual v
      = centralProjFlux nd inp v
        + Epsilon_0 (CCentLaxPB_Flow.construct nd nv config) inp
          * laxDiff_U nd inp v
          * (4 * (inp.Lambda_i
                / (4 * (0.5 * (|2 * ProjVelocity_i nd inp|
                    + |2 * ProjVelocity_j nd inp|)))) ^ (0.3 : ℝ)
              * (inp.Lambda_j
                / (4 * (0.5 * (|2 * ProjVelocity_i nd inp|
                    + |2 * ProjVelocity_j nd inp|)))) ^ (0.3 : ℝ)
            / ((inp.Lambda_i
                / (4 * (0.5 * (|2 * ProjVelocity_i nd inp|
                    + |2 * ProjVelocity_j nd inp|)))) ^ (0.3 : ℝ)
              + (inp.Lambda_j
                / (4 * (0.5 * (|2 * ProjVelocity_i nd inp|
                    + |2 * ProjVelocity_j nd inp|)))) ^ (0.3 : ℝ)))
          * (0.5 * (|2 * ProjVelocity_i nd inp| + |2 * ProjVelocity_j nd inp|)) := by
  constructor
  · simp only [CCentJSTPB_Flow.ComputeResidual, CCentJSTPB_Flow.construct,
      StretchingFactor, Phi_i, Phi_j, phiDenominator, MeanLambda,
      Local_Lambda_i, Local_Lambda_j]
  · simp only [CCentLaxPB_Flow.ComputeResidual, CCentLaxPB_Flow.construct,
      StretchingFactor, Phi_i, Phi_j, phiDenominator, MeanLambda,
      Local_Lambda_i, Local_Lambda_j]

/-! ### Helper lemmas on how each quantity transforms when the face
normal (and, where stated, the member spectral radii) are doubled. -/

theorem sum_mul_const_mul (n : ℕ) (f g : ℕ → ℝ) (c : ℝ) :
    ∑ d ∈ Finset.range n, f d * (c * g d)
      = c * ∑ d ∈ Finset.range n, f d * g d := by
  rw [Finset.mul_sum]
  exact Finset.sum_congr rfl fun d _ => by ring

theorem GetInviscidPBProjFlux_smul_normal (n : ℕ) (ρ : ℝ) (vel : ℕ → ℝ)
    (p : ℝ) (N : ℕ → ℝ) (c : ℝ) (k : ℕ) :
    GetInviscidPBProjFlux n ρ vel p (fun d => c * N d) k
      = c * GetInviscidPBProjFlux n ρ vel p N k := by
  simp only [GetInviscidPBProjFlux]
  rw [sum_mul_const_mul]
  ring

theorem GetInviscidPBProjJac_smul_normal (n : ℕ) (vel N : ℕ → ℝ)
    (c s : ℝ) (k m : ℕ) :
    GetInviscidPBProjJac n vel (fun d => c * N d) s k m
      = c * GetInviscidPBProjJac n vel N s k m := by
  simp only [GetInviscidPBProjJac]
  rw [sum_mul_const_mul]
  split_ifs with h
  · ring
  · ring

theorem upwFace_Flux_doubleNormal (n : ℕ) (inp : FaceInputs) :
    upwFace_Flux n (doubleNormal inp) = 2 * upwFace_Flux n inp := by
  rw [upwFace_Flux, upwFace_Flux, Finset.mul_sum]
  refine Finset.sum_congr rfl fun d _ => ?_
  show upwMeanDensity n inp * upwMeanVelocity inp d * (2 * inp.Normal d)
      = 2 * (upwMeanDensity n inp * upwMeanVelocity inp d * inp.Normal d)
  ring

theorem centralProjFlux_doubleNormalLambda (n : ℕ) (inp : FaceInputs) (v : ℕ) :
    centralProjFlux n (doubleNormalLambda inp) v = 2 * centralProjFlux n inp v :=
  GetInviscidPBProjFlux_smul_normal n (MeanDensity n inp) (MeanVelocity inp)
    (MeanPressure inp) inp.Normal 2 v

theorem centralProjJac_doubleNormalLambda (n : ℕ) (inp : FaceInputs) (v w : ℕ) :
    centralProjJac n (doubleNormalLambda inp) v w = 2 * centralProjJac n inp v w :=
  GetInviscidPBProjJac_smul_normal n (MeanVelocity inp) inp.Normal 2 0.5 v w

theorem ProjVelocity_i_doubleNormalLambda (n : ℕ) (inp : FaceInputs) :
    ProjVelocity_i n (doubleNormalLambda inp) = 2 * ProjVelocity_i n inp := by
  rw [ProjVelocity_i, ProjVelocity_i, Finset.mul_sum]
  refine Finset.sum_congr rfl fun d _ => ?_
  show Velocity_i inp d * (2 * inp.Normal d)
      = 2 * (Velocity_i inp d * inp.Normal d)
  ring

theorem ProjVelocity_j_doubleNormalLambda (n : ℕ) (inp : FaceInputs) :
    ProjVelocity_j n (doubleNormalLambda inp) = 2 * ProjVelocity_j n inp := by
  rw [ProjVelocity_j, ProjVelocity_j, Finset.mul_sum]
  refine Finset.sum_congr rfl fun d _ => ?_
  show Velocity_j inp d * (2 * inp.Normal d)
      = 2 * (Velocity_j inp d * inp.Normal d)
  ring

theorem Local_Lambda_i_doubleNormalLambda (n : ℕ) (inp : FaceInputs) :
    Local_Lambda_i n (doubleNormalLambda inp) = 2 * Local_Lambda_i n inp := by
  rw [Local_Lambda_i, Local_Lambda_i, ProjVelocity_i_doubleNormalLambda,
    show (2 : ℝ) * (2 * ProjVelocity_i n inp)
        = 2 * ProjVelocity_i n inp * 2 by ring,
    abs_mul, abs_two]
  ring

theorem Local_Lambda_j_doubleNormalLambda (n : ℕ) (inp : FaceInputs) :
    Local_Lambda_j n (doubleNormalLambda inp) = 2 * Local_Lambda_j n inp := by
  rw [Local_Lambda_j, Local_Lambda_j, ProjVelocity_j_doubleNormalLambda,
    show (2 : ℝ) * (2 * ProjVelocity_j n inp)
        = 2 * ProjVelocity_j n inp * 2 by ring,
    abs_mul, abs_two]
  ring

theorem MeanLambda_doubleNormalLambda (n : ℕ) (inp : FaceInputs) :
    MeanLambda n (doubleNormalLambda inp) = 2 * MeanLambda n inp := by
  rw [MeanLambda, MeanLambda, Local_Lambda_i_doubleNormalLambda,
    Local_Lambda_j_doubleNormalLambda]
  ring

theorem phiDenominator_doubleNormalLambda (n : ℕ) (inp : FaceInputs) :
    phiDenominator n (doubleNormalLambda inp) = 2 * phiDenominator n inp := by
  rw [phiDenominator, phiDenominator, MeanLambda_doubleNormalLambda]
  ring

theorem Phi_i_doubleNormalLambda (p : ℝ) (n : ℕ) (inp : FaceInputs) :
    Phi_i p n (doubleNormalLambda inp) = Phi_i p n inp := by
  rw [Phi_i, Phi_i, phiDenominator_doubleNormalLambda,
    show (doubleNormalLambda inp).Lambda_i = 2 * inp.Lambda_i from rfl,
    mul_div_mul_left inp.Lambda_i (phiDenominator n inp)
      (by norm_num : (2 : ℝ) ≠ 0)]

theorem Phi_j_doubleNormalLambda (p : ℝ) (n : ℕ) (inp : FaceInputs) :
    Phi_j p n (doubleNormalLambda inp) = Phi_j p n inp := by
  rw [Phi_j, Phi_j, phiDenominator_doubleNormalLambda,
    show (doubleNormalLambda inp).Lambda_j = 2 * inp.Lambda_j from rfl,
    mul_div_mul_left inp.Lambda_j (phiDenominator n inp)
      (by norm_num : (2 : ℝ) ≠ 0)]

theorem StretchingFactor_doubleNormalLambda (p : ℝ) (n : ℕ) (inp : FaceInputs) :
    StretchingFactor p n (doubleNormalLambda inp) = StretchingFactor p n inp := by
  rw [StretchingFactor, StretchingFactor, Phi_i_doubleNormalLambda,
    Phi_j_doubleNormalLambda]

theorem Epsilon_2_doubleNormalLambda (k : CCentJSTPB_Flow) (inp : FaceInputs) :
    Epsilon_2 k (doubleNormalLambda inp) = Epsilon_2 k inp := rfl

theorem Epsilon_4_doubleNormalLambda (k : CCentJSTPB_Flow) (inp : FaceInputs) :
    Epsilon_4 k (doubleNormalLambda inp) = Epsilon_4 k inp := rfl

theorem Epsilon_0_doubleNormalLambda (k : CCentLaxPB_Flow) (inp : FaceInputs) :
    Epsilon_0 k (doubleNormalLambda inp) = Epsilon_0 k inp := rfl

theorem Diff_U_doubleNormalLambda (inp : FaceInputs) (v : ℕ) :
    Diff_U (doubleNormalLambda inp) v = Diff_U inp v := rfl

theorem Diff_Lapl_doubleNormalLambda (inp : FaceInputs) (v : ℕ) :
    Diff_Lapl (doubleNormalLambda inp) v = Diff_Lapl inp v := rfl

theorem laxDiff_U_doubleNormalLambda (n : ℕ) (inp : FaceInputs) (v : ℕ) :
    laxDiff_U n (doubleNormalLambda inp) v = laxDiff_U n inp v := rfl

theorem jst_cte_0_doubleNormalLambda (k : CCentJSTPB_Flow) (inp : FaceInputs) :
    jst_cte_0 k (doubleNormalLambda inp) = 2 * jst_cte_0 k inp := by
  rw [jst_cte_0, jst_cte_0, Epsilon_2_doubleNormalLambda,
    Epsilon_4_doubleNormalLambda, StretchingFactor_doubleNormalLambda,
    MeanLambda_doubleNormalLambda,
    show (doubleNormalLambda inp).Neighbor_i = inp.Neighbor_i from rfl]
  ring

theorem jst_cte_1_doubleNormalLambda (k : CCentJSTPB_Flow) (inp : FaceInputs) :
    jst_cte_1 k (doubleNormalLambda inp) = 2 * jst_cte_1 k inp := by
  rw [jst_cte_1, jst_cte_1, Epsilon_2_doubleNormalLambda,
    Epsilon_4_doubleNormalLambda, StretchingFactor_doubleNormalLambda,
    MeanLambda_doubleNormalLambda,
    show (doubleNormalLambda inp).Neighbor_j = inp.Neighbor_j from rfl]
  ring

/-- C7 counterexample: doubling the face normal alone does NOT double the
Lax (or JST) residual.  At a concrete input the dissipation scales by
`2^0.7` rather than `2`, because `φ_i = (Lambda_i/(4·meanLambda))^0.3`
reads the member `Lambda_i`, which is independent of the normal, while
`meanLambda` doubles with it. -/
theorem C7_counterexample :
    ((CCentLaxPB_Flow.construct 2 2 cfgLax).ComputeResidual
        (doubleNormal scaleCexInput) zeroJac zeroJac).residual 0
      ≠ 2 * ((CCentLaxPB_Flow.construct 2 2 cfgLax).ComputeResidual
        scaleCexInput zeroJac zeroJac).residual 0 := by
  have hpi : ProjVelocity_i 2 scaleCexInput = 1 := by
    simp [ProjVelocity_i, Velocity_i, scaleCexInput, Finset.sum_range_succ]
  have hpj : ProjVelocity_j 2 scaleCexInput = 0 := by
    simp [ProjVelocity_j, Velocity_j, scaleCexInput, Finset.sum_range_succ]
  have hml : MeanLambda 2 scaleCexInput = 1 := by
    rw [MeanLambda, Local_Lambda_i, Local_Lambda_j, hpi, hpj, mul_one, mul_zero,
      abs_zero, abs_two]
    norm_num
  have hphi1 : Phi_i 0.3 2 scaleCexInput = 1 := by
    rw [Phi_i, phiDenominator, hml, show scaleCexInput.Lambda_i = 4 from rfl,
      show (4 : ℝ) * 1 = 4 by norm_num, show (4 : ℝ) / 4 = 1 by norm_num,
      Real.one_rpow]
  have hphj1 : Phi_j 0.3 2 scaleCexInput = 1 := by
    rw [Phi_j, phiDenominator, hml, show scaleCexInput.Lambda_j = 4 from rfl,
      show (4 : ℝ) * 1 = 4 by norm_num, show (4 : ℝ) / 4 = 1 by norm_num,
      Real.one_rpow]
  have hstr : StretchingFactor 0.3 2 scaleCexInput = 2 := by
    rw [StretchingFactor, hphi1, hphj1]
    norm_num
  have hcf : centralProjFlux 2 scaleCexInput 0 = 1 / 4 := by
    simp [centralProjFlux, GetInviscidPBProjFlux, MeanDensity, MeanVelocity,
      MeanPressure, Pressure_i, Pressure_j, DensityInc_i, DensityInc_j,
      Velocity_i, Velocity_j, scaleCexInput, Finset.sum_range_succ]
    norm_num
  have heps : Epsilon_0 (CCentLaxPB_Flow.construct 2 2 cfgLax) scaleCexInput = 1 := by
    rw [Epsilon_0, sc0, scDenominator]
    norm_num [scaleCexInput, CCentLaxPB_Flow.construct, cfgLax]
  have hdu : laxDiff_U 2 scaleCexInput 0 = 1 := by
    simp [laxDiff_U, laxU_i, laxU_j, DensityInc_i, DensityInc_j, Velocity_i,
      Velocity_j, scaleCexInput]
  have e1 : ((CCentLaxPB_Flow.construct 2 2 cfgLax).ComputeResidual
      scaleCexInput zeroJac zeroJac).residual 0 = 9 / 4 := by
    show centralProjFlux 2 scaleCexInput 0
        + Epsilon_0 (CCentLaxPB_Flow.construct 2 2 cfgLax) scaleCexInput
          * laxDiff_U 2 scaleCexInput 0 * StretchingFactor 0.3 2 scaleCexInput
          * MeanLambda 2 scaleCexInput = 9 / 4
    rw [hcf, heps, hdu, hstr, hml]
    norm_num
  have hpi2 : ProjVelocity_i 2 (doubleNormal scaleCexInput) = 2 := by
    simp [ProjVelocity_i, Velocity_i, doubleNormal, scaleCexInput,
      Finset.sum_range_succ]
  have hpj2 : ProjVelocity_j 2 (doubleNormal scaleCexInput) = 0 := by
    simp [ProjVelocity_j, Velocity_j, doubleNormal, scaleCexInput,
      Finset.sum_range_succ]
  have hml2 : MeanLambda 2 (doubleNormal scaleCexInput) = 2 := by
    rw [MeanLambda, Local_Lambda_i, Local_Lambda_j, hpi2, hpj2, mul_zero,
      abs_zero, show (2 : ℝ) * 2 = 4 by norm_num,
      show |(4 : ℝ)| = 4 from abs_of_nonneg (by norm_num)]
    norm_num
  have hphi2 : Phi_i 0.3 2 (doubleNormal scaleCexInput) = (1 / 2 : ℝ) ^ (0.3 : ℝ) := by
    rw [Phi_i, phiDenominator, hml2,
      show (doubleNormal scaleCexInput).Lambda_i = 4 from rfl,
      show (4 : ℝ) * 2 = 8 by norm_num, show (4 : ℝ) / 8 = 1 / 2 by norm_num]
  have hphj2 : Phi_j 0.3 2 (doubleNormal scaleCexInput) = (1 / 2 : ℝ) ^ (0.3 : ℝ) := by
    rw [Phi_j, phiDenominator, hml2,
      show (doubleNormal scaleCexInput).Lambda_j = 4 from rfl,
      show (4 : ℝ) * 2 = 8 by norm_num, show (4 : ℝ) / 8 = 1 / 2 by norm_num]
  have ht0 : (0 : ℝ) < (1 / 2 : ℝ) ^ (0.3 : ℝ) :=
    Real.rpow_pos_of_pos (by norm_num) _
  have hstr2 : StretchingFactor 0.3 2 (doubleNormal scaleCexInput)
      = 2 * ((1 / 2 : ℝ) ^ (0.3 : ℝ)) := by
    rw [StretchingFactor, hphi2, hphj2]
    field_simp
    ring
  have hcf2 : centralProjFlux 2 (doubleNormal scaleCexInput) 0 = 1 / 2 := by
    simp [centralProjFlux, GetInviscidPBProjFlux, MeanDensity, MeanVelocity,
      MeanPressure, Pressure_i, Pressure_j, DensityInc_i, DensityInc_j,
      Velocity_i, Velocity_j, doubleNormal, scaleCexInput, Finset.sum_range_succ]
    norm_num
  have heps2 : Epsilon_0 (CCentLaxPB_Flow.construct 2 2 cfgLax)
      (doubleNormal scaleCexInput) = 1 := heps
  have hdu2 : laxDiff_U 2 (doubleNormal scaleCexInput) 0 = 1 := hdu
  have e2 : ((CCentLaxPB_Flow.construct 2 2 cfgLax).ComputeResidual
      (doubleNormal scaleCexInput) zeroJac zeroJac).residual 0
      = 1 / 2 + 4 * ((1 / 2 : ℝ) ^ (0.3 : ℝ)) := by
    show centralProjFlux 2 (doubleNormal scaleCexInput) 0
        + Epsilon_0 (CCentLaxPB_Flow.construct 2 2 cfgLax)
            (doubleNormal scaleCexInput)
          * laxDiff_U 2 (doubleNormal scaleCexInput) 0
          * StretchingFactor 0.3 2 (doubleNormal scaleCexInput)
          * MeanLambda 2 (doubleNormal scaleCexInput) = _
    rw [hcf2, heps2, hdu2, hstr2, hml2]
    ring
  rw [e1, e2]
  have hlt : (1 / 2 : ℝ) ^ (0.3 : ℝ) < 1 :=
    Real.rpow_lt_one (by norm_num) (by norm_num) (by norm_num)
  intro h
  linarith

/-- C7 (amended): doubling the face normal exactly doubles every residual
component and every produced Jacobian entry of `CUpwPB_Flow` and the
residual of `CPressureSource`; for `CCentJSTPB_Flow` and `CCentLaxPB_Flow`
the same holds provided the externally supplied spectral radii `Lambda_i`,
`Lambda_j` are doubled along with the normal (they are not functions of the
normal inside the call, so doubling the normal alone does not double the
dissipation). -/
theorem C7_amended_scaling (ku : CUpwPB_Flow) (kj : CCentJSTPB_Flow)
    (kl : CCentLaxPB_Flow) (kp : CPressureSource) (inp : FaceInputs)
    (ji jj jp : ℕ → ℕ → ℝ) :
    (∀ v, (ku.ComputeResidual (doubleNormal inp) ji jj).residual v
        = 2 * (ku.ComputeResidual inp ji jj).residual v)
    ∧ (ku.implicit = true → ∀ v w,
        (ku.ComputeResidual (doubleNormal inp) ji jj).jac_i v w
            = 2 * (ku.ComputeResidual inp ji jj).jac_i v w
        ∧ (ku.ComputeResidual (doubleNormal inp) ji jj).jac_j v w
            = 2 * (ku.ComputeResidual inp ji jj).jac_j v w)
    ∧ (∀ v, (kj.ComputeResidual (doubleNormalLambda inp) ji jj).residual v
        = 2 * (kj.ComputeResidual inp ji jj).residual v)
    ∧ (kj.implicit = true → ∀ v w,
        (kj.ComputeResidual (doubleNormalLambda inp) ji jj).jac_i v w
            = 2 * (kj.ComputeResidual inp ji jj).jac_i v w
        ∧ (kj.ComputeResidual (doubleNormalLambda inp) ji jj).jac_j v w
            = 2 * (kj.ComputeResidual inp ji jj).jac_j v w)
    ∧ (∀ v, (kl.ComputeResidual (doubleNormalLambda inp) ji jj).residual v
        = 2 * (kl.ComputeResidual inp ji jj).residual v)
    ∧ (kl.implicit = true → ∀ v w,
        (kl.ComputeResidual (doubleNormalLambda inp) ji jj).jac_i v w
            = 2 * (kl.ComputeResidual inp ji jj).jac_i v w
        ∧ (kl.ComputeResidual (doubleNormalLambda inp) ji jj).jac_j v w
            = 2 * (kl.ComputeResidual inp ji jj).jac_j v w)
    ∧ (∀ d, (kp.ComputeResidual (doubleNormal inp) jp).1 d
        = 2 * (kp.ComputeResidual inp jp).1 d) := by
  refine ⟨?_, ?_, ?_, ?_, ?_, ?_, ?_⟩
  · intro v
    simp only [CUpwPB_Flow.ComputeResidual]
    rw [upwFace_Flux_doubleNormal]
    by_cases hff : upwFace_Flux ku.nDim inp > 0
    · rw [if_pos (by linarith), if_pos hff,
        show (doubleNormal inp).V_i = inp.V_i from rfl]
      ring
    · rw [if_neg (fun hc => hff (by linarith)), if_neg hff,
        show (doubleNormal inp).V_j = inp.V_j from rfl]
      ring
  · intro h v w
    simp only [CUpwPB_Flow.ComputeResidual, h, if_true]
    by_cases hff : upwFace_Flux ku.nDim inp > 0
    · have hff2 : upwFace_Flux ku.nDim (doubleNormal inp) > 0 := by
        rw [upwFace_Flux_doubleNormal]; linarith
      constructor
      · rw [if_pos hff, if_pos hff2]
        exact GetInviscidPBProjJac_smul_normal ku.nDim (Velocity_i inp)
          inp.Normal 2 1 v w
      · rw [if_pos hff, if_pos hff2]
        norm_num
    · have hff2 : ¬ upwFace_Flux ku.nDim (doubleNormal inp) > 0 := by
        rw [upwFace_Flux_doubleNormal]; intro hc; exact hff (by linarith)
      constructor
      · rw [if_neg hff, if_neg hff2]
        norm_num
      · rw [if_neg hff, if_neg hff2]
        exact GetInviscidPBProjJac_smul_normal ku.nDim (Velocity_j inp)
          inp.Normal 2 1 v w
  · intro v
    simp only [CCentJSTPB_Flow.ComputeResidual]
    rw [centralProjFlux_doubleNormalLambda, Epsilon_2_doubleNormalLambda,
      Epsilon_4_doubleNormalLambda, Diff_U_doubleNormalLambda,
      Diff_Lapl_doubleNormalLambda, StretchingFactor_doubleNormalLambda,
      MeanLambda_doubleNormalLambda]
    ring
  · intro h v w
    simp only [CCentJSTPB_Flow.ComputeResidual, h, if_true]
    have hite0 : (if v = w then jst_cte_0 kj (doubleNormalLambda inp) else 0)
        = 2 * (if v = w then jst_cte_0 kj inp else 0) := by
      by_cases hvw : v = w
      · rw [if_pos hvw, if_pos hvw, jst_cte_0_doubleNormalLambda]
      · rw [if_neg hvw, if_neg hvw]
        ring
    have hite1 : (if v = w then jst_cte_1 kj (doubleNormalLambda inp) else 0)
        = 2 * (if v = w then jst_cte_1 kj inp else 0) := by
      by_cases hvw : v = w
      · rw [if_pos hvw, if_pos hvw, jst_cte_1_doubleNormalLambda]
      · rw [if_neg hvw, if_neg hvw]
        ring
    constructor
    · rw [centralProjJac_doubleNormalLambda, hite0]
      ring
    · rw [centralProjJac_doubleNormalLambda, hite1]
      ring
  · intro v
    simp only [CCentLaxPB_Flow.ComputeResidual]
    rw [centralProjFlux_doubleNormalLambda, Epsilon_0_doubleNormalLambda,
      laxDiff_U_doubleNormalLambda, StretchingFactor_doubleNormalLambda,
      MeanLambda_doubleNormalLambda]
    ring
  · intro h v w
    simp only [CCentLaxPB_Flow.ComputeResidual, h, if_true]
    have hiteL : (if v = w then
          Epsilon_0 kl (doubleNormalLambda inp)
            * StretchingFactor kl.Param_p kl.nDim (doubleNormalLambda inp)
            * MeanLambda kl.nDim (doubleNormalLambda inp)
        else 0)
        = 2 * (if v = w then
            Epsilon_0 kl inp * StretchingFactor kl.Param_p kl.nDim inp
              * MeanLambda kl.nDim inp
          else 0) := by
      by_cases hvw : v = w
      · rw [if_pos hvw, if_pos hvw, Epsilon_0_doubleNormalLambda,
          StretchingFactor_doubleNormalLambda, MeanLambda_doubleNormalLambda]
        ring
      · rw [if_neg hvw, if_neg hvw]
        ring
    constructor
    · rw [centralProjJac_doubleNormalLambda, hiteL]
      ring
    · rw [centralProjJac_doubleNormalLambda, hiteL]
      ring
  · intro d
    show MeanPressure (doubleNormal inp) * (doubleNormal inp).Normal d
        = 2 * (MeanPressure inp * inp.Normal d)
    rw [show MeanPressure (doubleNormal inp) = MeanPressure inp from rfl,
      show (doubleNormal inp).Normal d = 2 * inp.Normal d from rfl]
    ring

/-- Witness for the amended C7 at concrete implicit-mode kernels and a
concrete input. -/
theorem C7_amended_scaling_witness :
    (CUpwPB_Flow.construct 2 2 cfgImp).implicit = true
    ∧ (CCentJSTPB_Flow.construct 2 2 cfgImp).implicit = true
    ∧ (CCentLaxPB_Flow.construct 2 2 cfgImp).implicit = true
    ∧ ((CUpwPB_Flow.construct 2 2 cfgImp).ComputeResidual
          (doubleNormal sampleInput) zeroJac zeroJac).residual 0
        = 2 * ((CUpwPB_Flow.construct 2 2 cfgImp).ComputeResidual
          sampleInput zeroJac zeroJac).residual 0
    ∧ ((CUpwPB_Flow.construct 2 2 cfgImp).ComputeResidual
          (doubleNormal sampleInput) zeroJac zeroJac).jac_i 0 1
        = 2 * ((CUpwPB_Flow.construct 2 2 cfgImp).ComputeResidual
          sampleInput zeroJac zeroJac).jac_i 0 1
    ∧ ((CCentJSTPB_Flow.construct 2 2 cfgImp).ComputeResidual
          (doubleNormalLambda sampleInput) zeroJac zeroJac).residual 0
        = 2 * ((CCentJSTPB_Flow.construct 2 2 cfgImp).ComputeResidual
          sampleInput zeroJac zeroJac).residual 0
    ∧ ((CCentJSTPB_Flow.construct 2 2 cfgImp).ComputeResidual
          (doubleNormalLambda sampleInput) zeroJac zeroJac).jac_j 1 1
        = 2 * ((CCentJSTPB_Flow.construct 2 2 cfgImp).ComputeResidual
          sampleInput zeroJac zeroJac).jac_j 1 1
    ∧ ((CCentLaxPB_Flow.construct 2 2 cfgImp).ComputeResidual
          (doubleNormalLambda sampleInput) zeroJac zeroJac).residual 0
        = 2 * ((CCentLaxPB_Flow.construct 2 2 cfgImp).ComputeResidual
          sampleInput zeroJac zeroJac).residual 0
    ∧ ((CCentLaxPB_Flow.construct 2 2 cfgImp).ComputeResidual
          (doubleNormalLambda sampleInput) zeroJac zeroJac).jac_i 0 0
        = 2 * ((CCentLaxPB_Flow.construct 2 2 cfgImp).ComputeResidual
          sampleInput zeroJac zeroJac).jac_i 0 0
    ∧ ((CPressureSource.construct 2 2 cfgImp).ComputeResidual
          (doubleNormal sampleInput) zeroJac).1 0
        = 2 * ((CPressureSource.construct 2 2 cfgImp).ComputeResidual
          sampleInput zeroJac).1 0 := by
  refine ⟨rfl, rfl, rfl, ?_, ?_, ?_, ?_, ?_, ?_, ?_⟩
  · exact (C7_amended_scaling (CUpwPB_Flow.construct 2 2 cfgImp)
      (CCentJSTPB_Flow.construct 2 2 cfgImp) (CCentLaxPB_Flow.construct 2 2 cfgImp)
      (CPressureSource.construct 2 2 cfgImp) sampleInput zeroJac zeroJac zeroJac).1 0
  · exact ((C7_amended_scaling (CUpwPB_Flow.construct 2 2 cfgImp)
      (CCentJSTPB_Flow.construct 2 2 cfgImp) (CCentLaxPB_Flow.construct 2 2 cfgImp)
      (CPressureSource.construct 2 2 cfgImp) sampleInput zeroJac zeroJac
      zeroJac).2.1 rfl 0 1).1
  · exact (C7_amended_scaling (CUpwPB_Flow.construct 2 2 cfgImp)
      (CCentJSTPB_Flow.construct 2 2 cfgImp) (CCentLaxPB_Flow.construct 2 2 cfgImp)
      (CPressureSource.construct 2 2 cfgImp) sampleInput zeroJac zeroJac
      zeroJac).2.2.1 0
  · exact ((C7_amended_scaling (CUpwPB_Flow.construct 2 2 cfgImp)
      (CCentJSTPB_Flow.construct 2 2 cfgImp) (CCentLaxPB_Flow.construct 2 2 cfgImp)
      (CPressureSource.construct 2 2 cfgImp) sampleInput zeroJac zeroJac
      zeroJac).2.2.2.1 rfl 1 1).2
  · exact (C7_amended_scaling (CUpwPB_Flow.construct 2 2 cfgImp)
      (CCentJSTPB_Flow.construct 2 2 cfgImp) (CCentLaxPB_Flow.construct 2 2 cfgImp)
      (CPressureSource.construct 2 2 cfgImp) sampleInput zeroJac zeroJac
      zeroJac).2.2.2.2.1 0
  · exact ((C7_amended_scaling (CUpwPB_Flow.construct 2 2 cfgImp)
      (CCentJSTPB_Flow.construct 2 2 cfgImp) (CCentLaxPB_Flow.construct 2 2 cfgImp)
      (CPressureSource.construct 2 2 cfgImp) sampleInput zeroJac zeroJac
      zeroJac).2.2.2.2.2.1 rfl 0 0).1
  · exact (C7_amended_scaling (CUpwPB_Flow.construct 2 2 cfgImp)
      (CCentJSTPB_Flow.construct 2 2 cfgImp) (CCentLaxPB_Flow.construct 2 2 cfgImp)
      (CPressureSource.construct 2 2 cfgImp) sampleInput zeroJac zeroJac
      zeroJac).2.2.2.2.2.2 0

end

end SU2
